import Mathlib

/-!
Verification development for the Complex-Surface repository.

The Python source (src/objects/runners.py, src/objects/functions.py) is
shallowly embedded below.  numpy float64 arithmetic is idealised as real
arithmetic (ℝ); numpy arrays indexed over `Fin` types; a Python exception
is an `Except` error value.  `np.linalg.qr` is an external library call and
is modelled as an explicit function parameter `qr`; its documented
guarantee (the returned factor has orthonormal columns) enters only as a
hypothesis where a claim depends on it.
-/

open scoped Matrix

/-- Errors raised by the embedded code.  `nameError s` models a Python
`NameError` raised when an unbound local variable `s` is read;
`indexError` models an `IndexError`; `exception msg` models a plain
`raise Exception(msg)`. -/
inductive RunError where
  | nameError (name : String)
  | indexError
  | exception (msg : String)
deriving Repr, DecidableEq

/-- A range specification: runners.py `{"min": .., "max": .., "segments": ..}`. -/
structure RangeSpec where
  min : ℝ
  max : ℝ
  segments : Nat

/-- `np.linspace a b (s+1)` over ℝ (runners.py lines 104, 175; numpy
samples `a + i*(b-a)/s`, endpoint included).  For `s = 0` the single
sample is `a`, matching numpy (Lean's `x / 0 = 0` makes the formula
collapse to `a` there). -/
noncomputable def linspace (a b : ℝ) (s : Nat) : Fin (s + 1) → ℝ :=
  fun i => a + (i : Nat) * ((b - a) / s)

/-- One cell of a transform matrix template: runners.py lines 176-192
treat each element as either a string token or a number. -/
inductive Cell where
  | num (x : ℝ)
  | tok (s : String)

/-- One entry of `rotations["transforms"]` (runners.py lines 154-158):
a start angle, an end angle and a square matrix template. -/
structure TransformSpec (k : Nat) where
  min : ℝ
  max : ℝ
  transform : Matrix (Fin k) (Fin k) Cell

/-- The `rotations` argument of `FunctionRunner.animate_rotation`:
a shared segment count and an ordered list of transforms. -/
structure RotationSpec (k : Nat) where
  segments : Nat
  transforms : List (TransformSpec k)

/-- Whether a cell is accepted by the token chain of runners.py lines
180-192: any number, or one of the four recognised trig tokens. -/
def cellValid : Cell → Bool
  | .num _ => true
  | .tok s => s = "cos" || s = "-cos" || s = "sin" || s = "-sin"

/-- The value a cell contributes at angle `θ`, mirroring the branch
chain of runners.py lines 180-192 in order ("cos", "-cos", "sin",
"-sin", numeric).  The final `0` is junk for an unrecognised token,
which `compileTransform` never reaches. -/
noncomputable def evalCell (θ : ℝ) : Cell → ℝ
  | .num x => x
  | .tok s =>
      if s = "cos" then Real.cos θ
      else if s = "-cos" then -Real.cos θ
      else if s = "sin" then Real.sin θ
      else if s = "-sin" then -Real.sin θ
      else 0

/-- The rotator built for one transform (runners.py lines 172-192):
frame `f` holds the matrix whose `(j, c)` cell is the cell template
evaluated at the `f`-th sample of `linspace min max (seg+1)`. -/
noncomputable def compiledMatrix {k : Nat} (seg : Nat) (t : TransformSpec k) :
    Fin (seg + 1) → Matrix (Fin k) (Fin k) ℝ :=
  fun f => Matrix.of fun j c => evalCell (linspace t.min t.max seg f) (t.transform j c)

/-- Compiling one transform.  If every cell is recognised the rotator of
`compiledMatrix` is produced; otherwise the `raise` at runners.py line
190 is reached, whose f-string reads the unbound name `multiplier` and
therefore raises `NameError` (the intended row/column message is never
built). -/
noncomputable def compileTransform {k : Nat} (seg : Nat) (t : TransformSpec k) :
    Except RunError (Fin (seg + 1) → Matrix (Fin k) (Fin k) ℝ) :=
  if (∀ j c : Fin k, cellValid (t.transform j c) = true) then
    .ok (compiledMatrix seg t)
  else
    .error (.nameError "multiplier")

/-- Compiling every transform of a rotation set in list order
(runners.py lines 170-192); the first invalid transform aborts the
loop with its error. -/
noncomputable def compileRotators {k : Nat} (spec : RotationSpec k) :
    Except RunError (List (Fin (spec.segments + 1) → Matrix (Fin k) (Fin k) ℝ)) :=
  spec.transforms.mapM (compileTransform spec.segments)

lemma compileTransform_ok {k : Nat} (seg : Nat) (t : TransformSpec k)
    (hv : ∀ j c : Fin k, cellValid (t.transform j c) = true) :
    compileTransform seg t = .ok (compiledMatrix seg t) := by
  rw [compileTransform, if_pos hv]

lemma mapM_compileTransform {k : Nat} (seg : Nat) (ts : List (TransformSpec k))
    (hv : ∀ t ∈ ts, ∀ j c : Fin k, cellValid (t.transform j c) = true) :
    ts.mapM (compileTransform seg) = .ok (ts.map (compiledMatrix seg)) := by
  induction ts with
  | nil => rfl
  | cons t ts ih =>
      rw [List.mapM_cons, compileTransform_ok seg t (hv t (List.mem_cons_self t ts))]
      rw [ih (fun u hu => hv u (List.mem_cons_of_mem t hu))]
      rfl

lemma compileRotators_ok {k : Nat} (spec : RotationSpec k)
    (hv : ∀ t ∈ spec.transforms, ∀ j c : Fin k, cellValid (t.transform j c) = true) :
    compileRotators spec = .ok (spec.transforms.map (compiledMatrix spec.segments)) :=
  mapM_compileTransform spec.segments spec.transforms hv

lemma linspace_zero_eq_min (a b : ℝ) (s : Nat) : linspace a b s 0 = a := by
  simp [linspace]

lemma linspace_last_eq_max (a b : ℝ) (s : Nat) (hs : 1 ≤ s) :
    linspace a b s (Fin.last s) = b := by
  have h0 : (s : ℝ) ≠ 0 := Nat.cast_ne_zero.mpr (by omega)
  simp only [linspace, Fin.val_last]
  field_simp

/-- C2: for every TransformSpec in a rotation set with `segments = s ≥ 1`
whose cells are all recognised, compilation succeeds and produces, per
frame, the matrix whose cells are: the constant for a numeric literal,
and cos, -cos, sin, -sin of the frame's angle for the four tokens; the
angle sequence has `s+1` evenly spaced samples with frame `0` at `min`
and frame `s` at `max`. -/
theorem compileTransform_spec {k : Nat} (seg : Nat) (t : TransformSpec k)
    (hseg : 1 ≤ seg)
    (hv : ∀ j c : Fin k, cellValid (t.transform j c) = true) :
    compileTransform seg t = .ok (compiledMatrix seg t)
    ∧ (∀ f : Fin (seg + 1), linspace t.min t.max seg f
        = t.min + (f : Nat) * ((t.max - t.min) / seg))
    ∧ linspace t.min t.max seg 0 = t.min
    ∧ linspace t.min t.max seg (Fin.last seg) = t.max
    ∧ (∀ i : Fin seg, linspace t.min t.max seg i.succ - linspace t.min t.max seg i.castSucc
        = (t.max - t.min) / seg)
    ∧ (∀ (f : Fin (seg + 1)) (j c : Fin k) (x : ℝ), t.transform j c = .num x →
        compiledMatrix seg t f j c = x)
    ∧ (∀ (f : Fin (seg + 1)) (j c : Fin k), t.transform j c = .tok "cos" →
        compiledMatrix seg t f j c = Real.cos (linspace t.min t.max seg f))
    ∧ (∀ (f : Fin (seg + 1)) (j c : Fin k), t.transform j c = .tok "-cos" →
        compiledMatrix seg t f j c = -Real.cos (linspace t.min t.max seg f))
    ∧ (∀ (f : Fin (seg + 1)) (j c : Fin k), t.transform j c = .tok "sin" →
        compiledMatrix seg t f j c = Real.sin (linspace t.min t.max seg f))
    ∧ (∀ (f : Fin (seg + 1)) (j c : Fin k), t.transform j c = .tok "-sin" →
        compiledMatrix seg t f j c = -Real.sin (linspace t.min t.max seg f)) := by
  refine ⟨compileTransform_ok seg t hv, fun f => rfl, linspace_zero_eq_min _ _ _,
    linspace_last_eq_max _ _ _ hseg, ?_, ?_, ?_, ?_, ?_, ?_⟩
  · intro i
    simp only [linspace, Fin.val_succ, Fin.coe_castSucc]
    push_cast
    ring
  · intro f j c x hx
    simp [compiledMatrix, hx, evalCell]
  · intro f j c hx
    simp [compiledMatrix, hx, evalCell]
  · intro f j c hx
    simp [compiledMatrix, hx, evalCell]
  · intro f j c hx
    simp [compiledMatrix, hx, evalCell]
  · intro f j c hx
    simp [compiledMatrix, hx, evalCell]

/-- Fixture: a 1×1 transform whose single cell is the token "cos". -/
noncomputable def cosTransform : TransformSpec 1 :=
  { min := 0, max := 1, transform := Matrix.of fun _ _ => Cell.tok "cos" }

/-- Witness for C2 at a concrete transform. -/
theorem compileTransform_spec_witness :
    (1 ≤ 1 ∧ ∀ j c : Fin 1, cellValid (cosTransform.transform j c) = true)
    ∧ (compileTransform 1 cosTransform = .ok (compiledMatrix 1 cosTransform)
      ∧ (∀ f : Fin 2, linspace cosTransform.min cosTransform.max 1 f
          = cosTransform.min + (f : Nat) * ((cosTransform.max - cosTransform.min) / ((1 : Nat) : ℝ)))
      ∧ linspace cosTransform.min cosTransform.max 1 0 = cosTransform.min
      ∧ linspace cosTransform.min cosTransform.max 1 (Fin.last 1) = cosTransform.max
      ∧ (∀ i : Fin 1, linspace cosTransform.min cosTransform.max 1 i.succ
          - linspace cosTransform.min cosTransform.max 1 i.castSucc
          = (cosTransform.max - cosTransform.min) / ((1 : Nat) : ℝ))
      ∧ (∀ (f : Fin 2) (j c : Fin 1) (x : ℝ), cosTransform.transform j c = .num x →
          compiledMatrix 1 cosTransform f j c = x)
      ∧ (∀ (f : Fin 2) (j c : Fin 1), cosTransform.transform j c = .tok "cos" →
          compiledMatrix 1 cosTransform f j c
            = Real.cos (linspace cosTransform.min cosTransform.max 1 f))
      ∧ (∀ (f : Fin 2) (j c : Fin 1), cosTransform.transform j c = .tok "-cos" →
          compiledMatrix 1 cosTransform f j c
            = -Real.cos (linspace cosTransform.min cosTransform.max 1 f))
      ∧ (∀ (f : Fin 2) (j c : Fin 1), cosTransform.transform j c = .tok "sin" →
          compiledMatrix 1 cosTransform f j c
            = Real.sin (linspace cosTransform.min cosTransform.max 1 f))
      ∧ (∀ (f : Fin 2) (j c : Fin 1), cosTransform.transform j c = .tok "-sin" →
          compiledMatrix 1 cosTransform f j c
            = -Real.sin (linspace cosTransform.min cosTransform.max 1 f))) :=
  ⟨⟨le_refl 1, fun _ _ => rfl⟩, compileTransform_spec 1 cosTransform (le_refl 1) (fun _ _ => rfl)⟩

/-- The last-computed point cloud held by a runner (runners.py lines
141-144): the ranges it came from and a stacked tensor of shape
`(k, n1, n2)` — `k` layers over a two-axis grid, the layout the frame
loop of `animate_rotation` (lines 238-240) iterates over. -/
structure ComputedPoints (k n1 n2 : Nat) where
  ranges : List RangeSpec
  points : Fin k → Fin n1 → Fin n2 → ℝ

/-- The animation result stored at runners.py lines 229-231: the ranges
copied from the point cloud and a tensor of shape `(F, k, n1, n2)`. -/
structure AnimationFrames (k n1 n2 : Nat) where
  ranges : List RangeSpec
  F : Nat
  frames : Fin F → Fin k → Fin n1 → Fin n2 → ℝ

/-- The mutable result fields of a `FunctionRunner` (runners.py lines
22-24): the last computed point cloud and animation frames, or `none`. -/
structure FunctionRunnerState (k n1 n2 : Nat) where
  computed_points : Option (ComputedPoints k n1 n2)
  animation_frames : Option (AnimationFrames k n1 n2)

/-- The body of `FunctionRunner.animate_rotation` past the guard
(runners.py lines 169-240), producing the frame tensor.  `qr` stands for
`np.linalg.qr` (only its first return value is used).  Steps, in source
order: compile every transform into a rotator (lines 170-192; the first
invalid token aborts with the NameError of line 190); reading
`rotators[0].shape` at line 195 raises IndexError when the transform
list is empty; a supplied basis is QR-orthonormalised and kept only when
its two sizes both equal the rotator size, otherwise it is silently
ignored (lines 199-209); per frame the rotators are left-folded with
matrix multiplication in list order and the kept basis, if any, is
right-multiplied once (lines 212-226); finally each frame matrix is
applied to the point vector at every grid position (lines 234-240). -/
noncomputable def animateFrames {k n1 n2 : Nat}
    (qr : (n : Nat) → Matrix (Fin n) (Fin n) ℝ → Matrix (Fin n) (Fin n) ℝ)
    (spec : RotationSpec k)
    (points : Fin k → Fin n1 → Fin n2 → ℝ)
    (basis_vectors : Option ((m : Nat) × Matrix (Fin m) (Fin m) ℝ)) :
    Except RunError (Fin (spec.segments + 1) → Fin k → Fin n1 → Fin n2 → ℝ) :=
  match compileRotators spec with
  | .error e => .error e
  | .ok [] => .error .indexError
  | .ok (r0 :: rest) =>
      let orthonormal_basis : Option (Matrix (Fin k) (Fin k) ℝ) :=
        match basis_vectors with
        | some b => if h : b.1 = k then some (qr k (h ▸ b.2)) else none
        | none => none
      let composite : Fin (spec.segments + 1) → Matrix (Fin k) (Fin k) ℝ := fun i =>
        let frame_rotator := rest.foldl (fun acc r => acc * r i) (r0 i)
        match orthonormal_basis with
        | some q => frame_rotator * q
        | none => frame_rotator
      .ok fun i d j c => Matrix.mulVec (composite i) (fun e => points e j c) d

/-- `FunctionRunner.animate_rotation` (runners.py lines 146-240): if no
point cloud was ever computed the guard at line 168 skips the whole body
and the method returns with the state untouched; otherwise the frame
tensor is computed and stored together with the cloud's ranges (lines
229-231). -/
noncomputable def FunctionRunner.animate_rotation {k n1 n2 : Nat}
    (qr : (n : Nat) → Matrix (Fin n) (Fin n) ℝ → Matrix (Fin n) (Fin n) ℝ)
    (st : FunctionRunnerState k n1 n2)
    (spec : RotationSpec k)
    (basis_vectors : Option ((m : Nat) × Matrix (Fin m) (Fin m) ℝ)) :
    Except RunError (FunctionRunnerState k n1 n2) :=
  match st.computed_points with
  | none => .ok st
  | some cp =>
      match animateFrames qr spec cp.points basis_vectors with
      | .error e => .error e
      | .ok frames =>
          .ok { st with
                  animation_frames := some ⟨cp.ranges, spec.segments + 1, frames⟩ }

lemma foldl_mul_eq_prod {M : Type*} [Monoid M] (a : M) (l : List M) :
    l.foldl (fun x y => x * y) a = a * l.prod := by
  induction l generalizing a with
  | nil => simp
  | cons b l ih => simp [ih, List.prod_cons, mul_assoc]

/-- With no basis supplied, `animateFrames` succeeds on a nonempty list
of valid transforms and frame `f` applies the product, in list order, of
the compiled rotators at `f` to each point vector. -/
lemma animateFrames_none_eq {k n1 n2 : Nat}
    (qr : (n : Nat) → Matrix (Fin n) (Fin n) ℝ → Matrix (Fin n) (Fin n) ℝ)
    (spec : RotationSpec k)
    (points : Fin k → Fin n1 → Fin n2 → ℝ)
    (hne : spec.transforms ≠ [])
    (hv : ∀ t ∈ spec.transforms, ∀ j c : Fin k, cellValid (t.transform j c) = true) :
    animateFrames qr spec points none
      = .ok (fun f d j c =>
          Matrix.mulVec ((spec.transforms.map fun t => compiledMatrix spec.segments t f).prod)
            (fun e => points e j c) d) := by
  obtain ⟨t0, ts, hts⟩ : ∃ t0 ts, spec.transforms = t0 :: ts := by
    cases h : spec.transforms with
    | nil => exact absurd h hne
    | cons a l => exact ⟨a, l, rfl⟩
  rw [animateFrames, compileRotators_ok spec hv, hts]
  simp only [List.map_cons]
  congr 1
  funext f d j c
  have hfold : ∀ (a : Matrix (Fin k) (Fin k) ℝ) (l : List (Fin (spec.segments + 1) → Matrix (Fin k) (Fin k) ℝ)),
      l.foldl (fun acc r => acc * r f) a = a * (l.map fun r => r f).prod := by
    intro a l
    rw [← List.foldl_map (fun r => r f) (fun x y => x * y) l a, foldl_mul_eq_prod]
  rw [hfold, List.map_map, List.prod_cons]
  rfl

/-- The state-level counterpart of `animateFrames_none_eq` for
`FunctionRunner.animate_rotation`. -/
lemma animate_rotation_none_eq {k n1 n2 : Nat}
    (qr : (n : Nat) → Matrix (Fin n) (Fin n) ℝ → Matrix (Fin n) (Fin n) ℝ)
    (st : FunctionRunnerState k n1 n2) (cp : ComputedPoints k n1 n2)
    (spec : RotationSpec k)
    (hcp : st.computed_points = some cp)
    (hne : spec.transforms ≠ [])
    (hv : ∀ t ∈ spec.transforms, ∀ j c : Fin k, cellValid (t.transform j c) = true) :
    FunctionRunner.animate_rotation qr st spec none
      = .ok { st with
                animation_frames := some
                  ⟨cp.ranges, spec.segments + 1,
                    fun f d j c =>
                      Matrix.mulVec
                        ((spec.transforms.map fun t => compiledMatrix spec.segments t f).prod)
                        (fun e => cp.points e j c) d⟩ } := by
  rw [FunctionRunner.animate_rotation, hcp]
  simp only [animateFrames_none_eq qr spec cp.points hne hv]

/-- C1: for a rotation spec applied without a projection basis to a held
point cloud, the produced animation-frame tensor has `F = segments + 1`
frames over the same `(k, n1, n2)`-shaped cloud, and the entry at frame
`f` and grid position `(j, c)` is the ordered matrix product of the
compiled rotator sequences at `f` — leftmost factor from the first spec
entry — applied to the cloud's point vector at `(j, c)`. -/
theorem animate_rotation_composite_spec {k n1 n2 : Nat}
    (qr : (n : Nat) → Matrix (Fin n) (Fin n) ℝ → Matrix (Fin n) (Fin n) ℝ)
    (st : FunctionRunnerState k n1 n2) (cp : ComputedPoints k n1 n2)
    (spec : RotationSpec k)
    (hcp : st.computed_points = some cp)
    (hne : spec.transforms ≠ [])
    (hv : ∀ t ∈ spec.transforms, ∀ j c : Fin k, cellValid (t.transform j c) = true) :
    ∃ st' : FunctionRunnerState k n1 n2, ∃ af : AnimationFrames k n1 n2,
      ∃ hF : af.F = spec.segments + 1,
        FunctionRunner.animate_rotation qr st spec none = .ok st'
        ∧ st'.animation_frames = some af
        ∧ st'.computed_points = st.computed_points
        ∧ af.ranges = cp.ranges
        ∧ ∀ (f : Fin (spec.segments + 1)) (d : Fin k) (j : Fin n1) (c : Fin n2),
            af.frames (Fin.cast hF.symm f) d j c
              = Matrix.mulVec
                  ((spec.transforms.map fun t => compiledMatrix spec.segments t f).prod)
                  (fun e => cp.points e j c) d := by
  exact ⟨{ st with
            animation_frames := some
              ⟨cp.ranges, spec.segments + 1,
                fun f d j c =>
                  Matrix.mulVec
                    ((spec.transforms.map fun t => compiledMatrix spec.segments t f).prod)
                    (fun e => cp.points e j c) d⟩ },
    ⟨cp.ranges, spec.segments + 1,
      fun f d j c =>
        Matrix.mulVec
          ((spec.transforms.map fun t => compiledMatrix spec.segments t f).prod)
          (fun e => cp.points e j c) d⟩,
    rfl, animate_rotation_none_eq qr st cp spec hcp hne hv, rfl, rfl, rfl,
    fun f d j c => rfl⟩

/-- Fixture: a concrete 2×2 identity transform template. -/
noncomputable def idTransform2 : TransformSpec 2 :=
  { min := 0, max := 1,
    transform := Matrix.of fun j c => if j = c then Cell.num 1 else Cell.num 0 }

/-- Fixture: a rotation set holding only `idTransform2`, with one segment. -/
noncomputable def idSpec2 : RotationSpec 2 := { segments := 1, transforms := [idTransform2] }

/-- Fixture: a concrete held point cloud over a 1×1 grid of 2-vectors. -/
noncomputable def cloud2 : ComputedPoints 2 1 1 :=
  { ranges := [], points := fun d _ _ => if d = 0 then 3 else 5 }

/-- Fixture: a runner state holding `cloud2` and no animation frames. -/
noncomputable def state2 : FunctionRunnerState 2 1 1 :=
  { computed_points := some cloud2, animation_frames := none }

/-- Fixture: a concrete stand-in for `np.linalg.qr` returning the input. -/
def qrId : (n : Nat) → Matrix (Fin n) (Fin n) ℝ → Matrix (Fin n) (Fin n) ℝ :=
  fun _ M => M

lemma idSpec2_transforms_ne : idSpec2.transforms ≠ [] := by
  simp [idSpec2]

lemma idSpec2_cells_valid :
    ∀ t ∈ idSpec2.transforms, ∀ j c : Fin 2, cellValid (t.transform j c) = true := by
  intro t ht j c
  rcases List.mem_singleton.mp ht with rfl
  by_cases h : j = c <;> simp [idTransform2, h, cellValid]

/-- Witness for C1 at a concrete state, spec and cloud. -/
theorem animate_rotation_composite_spec_witness :
    (state2.computed_points = some cloud2
      ∧ idSpec2.transforms ≠ []
      ∧ ∀ t ∈ idSpec2.transforms, ∀ j c : Fin 2, cellValid (t.transform j c) = true)
    ∧ ∃ st' : FunctionRunnerState 2 1 1, ∃ af : AnimationFrames 2 1 1,
      ∃ hF : af.F = idSpec2.segments + 1,
        FunctionRunner.animate_rotation qrId state2 idSpec2 none = .ok st'
        ∧ st'.animation_frames = some af
        ∧ st'.computed_points = state2.computed_points
        ∧ af.ranges = cloud2.ranges
        ∧ ∀ (f : Fin (idSpec2.segments + 1)) (d : Fin 2) (j c : Fin 1),
            af.frames (Fin.cast hF.symm f) d j c
              = Matrix.mulVec
                  ((idSpec2.transforms.map fun t => compiledMatrix idSpec2.segments t f).prod)
                  (fun e => cloud2.points e j c) d :=
  ⟨⟨rfl, idSpec2_transforms_ne, idSpec2_cells_valid⟩,
    animate_rotation_composite_spec qrId state2 cloud2 idSpec2 rfl
      idSpec2_transforms_ne idSpec2_cells_valid⟩

/-- C5: if every transform of a rotation set compiles to the identity
matrix at every frame and no projection basis is supplied, every frame
of the animation output equals the original point cloud. -/
theorem identity_transforms_preserve_cloud {k n1 n2 : Nat}
    (qr : (n : Nat) → Matrix (Fin n) (Fin n) ℝ → Matrix (Fin n) (Fin n) ℝ)
    (st : FunctionRunnerState k n1 n2) (cp : ComputedPoints k n1 n2)
    (spec : RotationSpec k)
    (hcp : st.computed_points = some cp)
    (hne : spec.transforms ≠ [])
    (hv : ∀ t ∈ spec.transforms, ∀ j c : Fin k, cellValid (t.transform j c) = true)
    (hid : ∀ t ∈ spec.transforms, ∀ f : Fin (spec.segments + 1),
        compiledMatrix spec.segments t f = 1) :
    ∃ st' : FunctionRunnerState k n1 n2, ∃ af : AnimationFrames k n1 n2,
      ∃ hF : af.F = spec.segments + 1,
        FunctionRunner.animate_rotation qr st spec none = .ok st'
        ∧ st'.animation_frames = some af
        ∧ ∀ (f : Fin (spec.segments + 1)) (d : Fin k) (j : Fin n1) (c : Fin n2),
            af.frames (Fin.cast hF.symm f) d j c = cp.points d j c := by
  refine ⟨_, _, rfl, animate_rotation_none_eq qr st cp spec hcp hne hv, rfl, ?_⟩
  intro f d j c
  show Matrix.mulVec ((spec.transforms.map fun t => compiledMatrix spec.segments t f).prod)
      (fun e => cp.points e j c) d = cp.points d j c
  have hprod : (spec.transforms.map fun t => compiledMatrix spec.segments t f).prod = 1 := by
    apply List.prod_eq_one
    intro x hx
    obtain ⟨t, ht, rfl⟩ := List.mem_map.mp hx
    exact hid t ht f
  rw [hprod, Matrix.one_mulVec]

lemma idTransform2_compiles_to_one :
    ∀ t ∈ idSpec2.transforms, ∀ f : Fin (idSpec2.segments + 1),
      compiledMatrix idSpec2.segments t f = 1 := by
  intro t ht f
  rcases List.mem_singleton.mp ht with rfl
  ext j c
  by_cases h : j = c <;>
    simp [compiledMatrix, idTransform2, h, evalCell, Matrix.one_apply]

/-- Witness for C5 at a concrete state, spec and cloud. -/
theorem identity_transforms_preserve_cloud_witness :
    (state2.computed_points = some cloud2
      ∧ idSpec2.transforms ≠ []
      ∧ (∀ t ∈ idSpec2.transforms, ∀ j c : Fin 2, cellValid (t.transform j c) = true)
      ∧ ∀ t ∈ idSpec2.transforms, ∀ f : Fin (idSpec2.segments + 1),
          compiledMatrix idSpec2.segments t f = 1)
    ∧ ∃ st' : FunctionRunnerState 2 1 1, ∃ af : AnimationFrames 2 1 1,
      ∃ hF : af.F = idSpec2.segments + 1,
        FunctionRunner.animate_rotation qrId state2 idSpec2 none = .ok st'
        ∧ st'.animation_frames = some af
        ∧ ∀ (f : Fin (idSpec2.segments + 1)) (d : Fin 2) (j c : Fin 1),
            af.frames (Fin.cast hF.symm f) d j c = cloud2.points d j c :=
  ⟨⟨rfl, idSpec2_transforms_ne, idSpec2_cells_valid, idTransform2_compiles_to_one⟩,
    identity_transforms_preserve_cloud qrId state2 cloud2 idSpec2 rfl
      idSpec2_transforms_ne idSpec2_cells_valid idTransform2_compiles_to_one⟩

/-- Fixture: a 1×1 transform template whose single cell is the
unrecognised token "tan". -/
noncomputable def badTransform : TransformSpec 1 :=
  { min := 0, max := 1, transform := Matrix.of fun _ _ => Cell.tok "tan" }

/-- C6 (code_bug): compiling a transform containing an unrecognised
token does not raise an exception identifying the offending row and
column — the `raise` at runners.py line 190 interpolates the unbound
names `multiplier`, `row_counter` and `column_counter` into its
f-string, so what is actually raised is a bare `NameError` about
`multiplier`, carrying no row or column information. -/
theorem unknown_token_raises_bare_name_error :
    compileTransform 1 badTransform = .error (.nameError "multiplier") := by
  have h : ¬ (∀ j c : Fin 1, cellValid (badTransform.transform j c) = true) := by
    intro h
    exact absurd (h 0 0) (by decide)
  rw [compileTransform, if_neg h]

/-- Shared helper for C8: the body of `animate_rotation` treats a basis
whose size differs from the rotators' size exactly like no basis at all
(the guard at runners.py lines 201-207 fails and `has_orthonormal_basis`
stays `False`). -/
lemma animateFrames_basis_mismatch {k n1 n2 : Nat}
    (qr : (n : Nat) → Matrix (Fin n) (Fin n) ℝ → Matrix (Fin n) (Fin n) ℝ)
    (spec : RotationSpec k)
    (points : Fin k → Fin n1 → Fin n2 → ℝ)
    (m : Nat) (B : Matrix (Fin m) (Fin m) ℝ) (hm : m ≠ k) :
    animateFrames qr spec points (some ⟨m, B⟩)
      = animateFrames qr spec points none := by
  rw [animateFrames, animateFrames]
  cases compileRotators spec with
  | error e => rfl
  | ok l =>
      cases l with
      | nil => rfl
      | cons r0 rest => simp [dif_neg hm]

/-- State-level form of `animateFrames_basis_mismatch`. -/
lemma animate_rotation_basis_mismatch {k n1 n2 : Nat}
    (qr : (n : Nat) → Matrix (Fin n) (Fin n) ℝ → Matrix (Fin n) (Fin n) ℝ)
    (st : FunctionRunnerState k n1 n2)
    (spec : RotationSpec k)
    (m : Nat) (B : Matrix (Fin m) (Fin m) ℝ) (hm : m ≠ k) :
    FunctionRunner.animate_rotation qr st spec (some ⟨m, B⟩)
      = FunctionRunner.animate_rotation qr st spec none := by
  rw [FunctionRunner.animate_rotation, FunctionRunner.animate_rotation]
  cases st.computed_points with
  | none => rfl
  | some cp => simp only [animateFrames_basis_mismatch qr spec cp.points m B hm]

/-- Fixture: a held point cloud of 1-vectors over a 1×1 grid. -/
noncomputable def cloud1 : ComputedPoints 1 1 1 :=
  { ranges := [], points := fun _ _ _ => 7 }

/-- Fixture: a runner state holding `cloud1`. -/
noncomputable def state1 : FunctionRunnerState 1 1 1 :=
  { computed_points := some cloud1, animation_frames := none }

/-- Fixture: a rotation set with one 1×1 numeric transform. -/
noncomputable def numSpec1 : RotationSpec 1 :=
  { segments := 0, transforms := [{ min := 0, max := 1, transform := Matrix.of fun _ _ => Cell.num 2 }] }

lemma numSpec1_transforms_ne : numSpec1.transforms ≠ [] := by
  simp [numSpec1]

lemma numSpec1_cells_valid :
    ∀ t ∈ numSpec1.transforms, ∀ j c : Fin 1, cellValid (t.transform j c) = true := by
  intro t ht j c
  rcases List.mem_singleton.mp ht with rfl
  rfl

/-- C8 counterexample: a concrete 2×2 basis supplied against 1×1
rotation matrices raises no error — the run succeeds, returning exactly
what it returns with no basis at all, so the mismatch is silently
dropped rather than reported. -/
theorem mismatched_basis_not_an_error :
    (FunctionRunner.animate_rotation qrId state1 numSpec1
        (some ⟨2, (1 : Matrix (Fin 2) (Fin 2) ℝ)⟩)).isOk = true
    ∧ FunctionRunner.animate_rotation qrId state1 numSpec1
        (some ⟨2, (1 : Matrix (Fin 2) (Fin 2) ℝ)⟩)
      = FunctionRunner.animate_rotation qrId state1 numSpec1 none := by
  have hmm : (2 : Nat) ≠ 1 := by decide
  have heq := animate_rotation_basis_mismatch qrId state1 numSpec1 2
      (1 : Matrix (Fin 2) (Fin 2) ℝ) hmm
  refine ⟨?_, heq⟩
  rw [heq, animate_rotation_none_eq qrId state1 cloud1 numSpec1 rfl
      numSpec1_transforms_ne numSpec1_cells_valid]
  rfl

/-- C8 (amended): a supplied projection basis whose size does not match
the k×k rotation matrices is silently ignored — the animation behaves
exactly as if no basis had been supplied; no error is raised for the
mismatch. -/
theorem mismatched_basis_silently_ignored {k n1 n2 : Nat}
    (qr : (n : Nat) → Matrix (Fin n) (Fin n) ℝ → Matrix (Fin n) (Fin n) ℝ)
    (st : FunctionRunnerState k n1 n2)
    (spec : RotationSpec k)
    (m : Nat) (B : Matrix (Fin m) (Fin m) ℝ) (hm : m ≠ k) :
    FunctionRunner.animate_rotation qr st spec (some ⟨m, B⟩)
      = FunctionRunner.animate_rotation qr st spec none :=
  animate_rotation_basis_mismatch qr st spec m B hm

/-- Witness for C8's amended statement at a concrete mismatched basis. -/
theorem mismatched_basis_silently_ignored_witness :
    ((2 + 1 : Nat) ≠ 2)
    ∧ FunctionRunner.animate_rotation qrId state2 idSpec2
        (some ⟨2 + 1, (1 : Matrix (Fin (2 + 1)) (Fin (2 + 1)) ℝ)⟩)
      = FunctionRunner.animate_rotation qrId state2 idSpec2 none :=
  ⟨by decide,
    mismatched_basis_silently_ignored qrId state2 idSpec2 (2 + 1)
      (1 : Matrix (Fin (2 + 1)) (Fin (2 + 1)) ℝ) (by decide)⟩

/-- The JSON-ready value `to_be_written` that `FunctionRunner.write`
assembles before dumping it (runners.py lines 266-282): either the
ranges and points of the computed cloud or the ranges and frames of the
animation.  The file write itself (lines 287-290) is I/O outside this
model. -/
inductive Written (k n1 n2 : Nat) where
  | points (ranges : List RangeSpec) (pts : Fin k → Fin n1 → Fin n2 → ℝ)
  | frames (ranges : List RangeSpec) (F : Nat) (fr : Fin F → Fin k → Fin n1 → Fin n2 → ℝ)

/-- `FunctionRunner.write` (runners.py lines 242-290), modelled up to
the serialised value: for "computed_points" or "animation_frames" the
held object is returned, or the corresponding `raise Exception(...)` of
lines 273 and 282 fires when it is absent; any other name reaches the
`raise` of line 285. -/
noncomputable def FunctionRunner.write {k n1 n2 : Nat}
    (st : FunctionRunnerState k n1 n2) (object_name : String) :
    Except RunError (Written k n1 n2) :=
  if object_name = "computed_points" then
    match st.computed_points with
    | some cp => .ok (.points cp.ranges cp.points)
    | none => .error (.exception "The computed_points object is empty and cannot be written")
  else if object_name = "animation_frames" then
    match st.animation_frames with
    | some af => .ok (.frames af.ranges af.F af.frames)
    | none => .error (.exception "The animation_frames object is empty and cannot be written")
  else
    .error (.exception "A valid computed object\x27s name needs to be specified in order to write it out to a file")

/-- Fixture: a runner state with neither result computed. -/
noncomputable def stateEmpty : FunctionRunnerState 1 1 1 :=
  { computed_points := none, animation_frames := none }

/-- C9 counterexample: calling `animate_rotation` on a runner that never
computed a point cloud raises nothing — the guard at runners.py line 168
silently skips the body and the state is returned unchanged, so the
claimed error for this case does not exist. -/
theorem animate_without_cloud_is_silent :
    FunctionRunner.animate_rotation qrId stateEmpty numSpec1 none = .ok stateEmpty := rfl

/-- C9 (amended): serialising a result that was never computed does
raise — `write` of "computed_points" or "animation_frames" fails with
the corresponding exception when the object is absent — but animating
rotations when no point cloud was ever computed does not raise: the
call silently returns with the state unchanged. -/
theorem missing_result_behaviour {k n1 n2 : Nat}
    (qr : (n : Nat) → Matrix (Fin n) (Fin n) ℝ → Matrix (Fin n) (Fin n) ℝ)
    (st : FunctionRunnerState k n1 n2)
    (spec : RotationSpec k)
    (basis_vectors : Option ((m : Nat) × Matrix (Fin m) (Fin m) ℝ))
    (hcp : st.computed_points = none) :
    FunctionRunner.animate_rotation qr st spec basis_vectors = .ok st
    ∧ FunctionRunner.write st "computed_points"
        = .error (.exception "The computed_points object is empty and cannot be written")
    ∧ (st.animation_frames = none →
        FunctionRunner.write st "animation_frames"
          = .error (.exception "The animation_frames object is empty and cannot be written")) := by
  refine ⟨?_, ?_, ?_⟩
  · rw [FunctionRunner.animate_rotation, hcp]
  · rw [FunctionRunner.write, if_pos rfl, hcp]
  · intro haf
    rw [FunctionRunner.write, if_neg (by decide), if_pos rfl, haf]

/-- Witness for C9's amended statement at the empty runner state. -/
theorem missing_result_behaviour_witness :
    (stateEmpty.computed_points = none ∧ stateEmpty.animation_frames = none)
    ∧ (FunctionRunner.animate_rotation qrId stateEmpty numSpec1 none = .ok stateEmpty
      ∧ FunctionRunner.write stateEmpty "computed_points"
          = .error (.exception "The computed_points object is empty and cannot be written")
      ∧ (stateEmpty.animation_frames = none →
          FunctionRunner.write stateEmpty "animation_frames"
            = .error (.exception "The animation_frames object is empty and cannot be written"))) :=
  ⟨⟨rfl, rfl⟩, missing_result_behaviour qrId stateEmpty numSpec1 none rfl⟩

/-- The `rotate_basis` argument of `generate_orthonormal_bases`
(functions.py lines 14-21): the index of the vector to rotate, the two
element indices forming the rotation plane (`rotate_elements[0]` and
`rotate_elements[1]` of the source list), and the angle sweep. -/
structure RotateBasis (k : Nat) where
  rotate_vector : Fin k
  rotate_elements : Fin k × Fin k
  min : ℝ
  max : ℝ
  segments : Nat

/-- One in-place assignment `M[r, c] = x` on a matrix. -/
def updateEntry {k : Nat} (M : Matrix (Fin k) (Fin k) ℝ) (r c : Fin k) (x : ℝ) :
    Matrix (Fin k) (Fin k) ℝ :=
  Matrix.of fun i j => if i = r ∧ j = c then x else M i j

/-- The per-frame transform matrix of functions.py lines 36-46: start
from all zeros, set diagonal ones for each index not in
`rotate_elements`, then make the four block assignments
`[e0,e0]=cos θ`, `[e0,e1]=-sin θ`, `[e1,e0]=sin θ`, `[e1,e1]=cos θ`
in source order. -/
noncomputable def sweepTransform {k : Nat} (rb : RotateBasis k) (θ : ℝ) :
    Matrix (Fin k) (Fin k) ℝ :=
  let d : Matrix (Fin k) (Fin k) ℝ :=
    Matrix.of fun i j =>
      if i = j ∧ i ≠ rb.rotate_elements.1 ∧ i ≠ rb.rotate_elements.2 then 1 else 0
  updateEntry
    (updateEntry
      (updateEntry
        (updateEntry d rb.rotate_elements.1 rb.rotate_elements.1 (Real.cos θ))
        rb.rotate_elements.1 rb.rotate_elements.2 (-Real.sin θ))
      rb.rotate_elements.2 rb.rotate_elements.1 (Real.sin θ))
    rb.rotate_elements.2 rb.rotate_elements.2 (Real.cos θ)

/-- Frame `i` of the pre-orthonormalisation vector set of functions.py
lines 30-50: the initial basis is transposed (so vector `v` becomes
column `v`), replicated per frame, and the designated column alone is
replaced by the frame's transform applied to it. -/
noncomputable def vectorSet {k : Nat} (rb : RotateBasis k)
    (basis : Matrix (Fin k) (Fin k) ℝ) :
    Fin (rb.segments + 1) → Matrix (Fin k) (Fin k) ℝ :=
  fun i =>
    Matrix.updateColumn basis.transpose rb.rotate_vector
      (Matrix.mulVec (sweepTransform rb (linspace rb.min rb.max rb.segments i))
        (fun r => basis.transpose r rb.rotate_vector))

/-- `generate_orthonormal_bases` (functions.py lines 5-57): build the
rotated vector set, orthonormalise every frame independently with the
library decomposition `qr` (functions.py line 55, `np.linalg.qr`), and
return the orthonormal sequence — together with the pre-
orthonormalisation sequence when `return_vector_set` is set. -/
noncomputable def generate_orthonormal_bases {k : Nat}
    (qr : (n : Nat) → Matrix (Fin n) (Fin n) ℝ → Matrix (Fin n) (Fin n) ℝ)
    (basis : Matrix (Fin k) (Fin k) ℝ)
    (rotate_basis : RotateBasis k)
    (return_vector_set : Bool) :
    (Fin (rotate_basis.segments + 1) → Matrix (Fin k) (Fin k) ℝ)
      × Option (Fin (rotate_basis.segments + 1) → Matrix (Fin k) (Fin k) ℝ) :=
  let vs := vectorSet rotate_basis basis
  (fun i => qr k (vs i), if return_vector_set then some vs else none)

/-- The rotation matrix the spec describes: identity everywhere except
the standard 2×2 planar rotation block at the chosen index pair. -/
noncomputable def planarRotation {k : Nat} (e0 e1 : Fin k) (θ : ℝ) :
    Matrix (Fin k) (Fin k) ℝ :=
  Matrix.of fun a b =>
    if a = e0 ∧ b = e0 then Real.cos θ
    else if a = e0 ∧ b = e1 then -Real.sin θ
    else if a = e1 ∧ b = e0 then Real.sin θ
    else if a = e1 ∧ b = e1 then Real.cos θ
    else if a = b then 1 else 0

lemma sweepTransform_eq_planarRotation {k : Nat} (rb : RotateBasis k) (θ : ℝ)
    (hne : rb.rotate_elements.1 ≠ rb.rotate_elements.2) :
    sweepTransform rb θ = planarRotation rb.rotate_elements.1 rb.rotate_elements.2 θ := by
  funext a b
  simp only [sweepTransform, planarRotation, updateEntry, Matrix.of_apply]
  by_cases ha0 : a = rb.rotate_elements.1 <;>
    by_cases ha1 : a = rb.rotate_elements.2 <;>
      by_cases hb0 : b = rb.rotate_elements.1 <;>
        by_cases hb1 : b = rb.rotate_elements.2 <;>
          simp_all <;>
            try rfl
  all_goals by_cases hab : a = b <;> simp_all

/-- C3: for every initial square basis, designated vector, pair of
distinct coordinate indices and angle sweep, the swept orthonormaliser
returns `segments + 1` frames; each frame's pre-orthonormalisation set
keeps every non-designated vector equal to the initial one and replaces
the designated vector by the planar-rotation matrix — identity except
the standard 2×2 [[cos, −sin],[sin, cos]] block at the index pair —
applied to it; each returned frame is the library orthonormalisation of
that set, computed independently per frame; and the pre-
orthonormalisation sequence is returned exactly when the diagnostic
flag is set. -/
theorem generate_orthonormal_bases_spec {k : Nat}
    (qr : (n : Nat) → Matrix (Fin n) (Fin n) ℝ → Matrix (Fin n) (Fin n) ℝ)
    (basis : Matrix (Fin k) (Fin k) ℝ)
    (rb : RotateBasis k)
    (return_vector_set : Bool)
    (hne : rb.rotate_elements.1 ≠ rb.rotate_elements.2) :
    (∀ i : Fin (rb.segments + 1), ∀ v, v ≠ rb.rotate_vector → ∀ r,
        vectorSet rb basis i r v = basis v r)
    ∧ (∀ i : Fin (rb.segments + 1), ∀ r,
        vectorSet rb basis i r rb.rotate_vector
          = Matrix.mulVec
              (planarRotation rb.rotate_elements.1 rb.rotate_elements.2
                (linspace rb.min rb.max rb.segments i))
              (fun s => basis rb.rotate_vector s) r)
    ∧ (∀ i : Fin (rb.segments + 1),
        (generate_orthonormal_bases qr basis rb return_vector_set).1 i
          = qr k (vectorSet rb basis i))
    ∧ (generate_orthonormal_bases qr basis rb return_vector_set).2
        = (if return_vector_set then some (vectorSet rb basis) else none) := by
  refine ⟨?_, ?_, fun i => rfl, rfl⟩
  · intro i v hv r
    rw [vectorSet, Matrix.updateColumn_ne hv]
    rfl
  · intro i r
    rw [vectorSet, Matrix.updateColumn_self,
      sweepTransform_eq_planarRotation rb _ hne]
    rfl

/-- Fixture: a sweep rotating vector 0 in the (0, 1) plane of a
2-dimensional basis from angle 0 to 0 in one segment. -/
noncomputable def rb2 : RotateBasis 2 :=
  { rotate_vector := 0, rotate_elements := (0, 1), min := 0, max := 0, segments := 1 }

/-- Witness for C3 at a concrete basis and sweep. -/
theorem generate_orthonormal_bases_spec_witness :
    (rb2.rotate_elements.1 ≠ rb2.rotate_elements.2)
    ∧ ((∀ i : Fin (rb2.segments + 1), ∀ v, v ≠ rb2.rotate_vector → ∀ r,
          vectorSet rb2 (1 : Matrix (Fin 2) (Fin 2) ℝ) i r v
            = (1 : Matrix (Fin 2) (Fin 2) ℝ) v r)
      ∧ (∀ i : Fin (rb2.segments + 1), ∀ r,
          vectorSet rb2 (1 : Matrix (Fin 2) (Fin 2) ℝ) i r rb2.rotate_vector
            = Matrix.mulVec
                (planarRotation rb2.rotate_elements.1 rb2.rotate_elements.2
                  (linspace rb2.min rb2.max rb2.segments i))
                (fun s => (1 : Matrix (Fin 2) (Fin 2) ℝ) rb2.rotate_vector s) r)
      ∧ (∀ i : Fin (rb2.segments + 1),
          (generate_orthonormal_bases qrId (1 : Matrix (Fin 2) (Fin 2) ℝ) rb2 true).1 i
            = qrId 2 (vectorSet rb2 (1 : Matrix (Fin 2) (Fin 2) ℝ) i))
      ∧ (generate_orthonormal_bases qrId (1 : Matrix (Fin 2) (Fin 2) ℝ) rb2 true).2
          = (if true then some (vectorSet rb2 (1 : Matrix (Fin 2) (Fin 2) ℝ)) else none)) :=
  ⟨by decide,
    generate_orthonormal_bases_spec qrId (1 : Matrix (Fin 2) (Fin 2) ℝ) rb2 true (by decide)⟩

/-- The claim's notion of an orthonormal column set: pairwise orthogonal
columns, each of unit norm. -/
def orthonormalColumns {k : Nat} (Q : Matrix (Fin k) (Fin k) ℝ) : Prop :=
  (∀ v, (∑ r, Q r v * Q r v) = 1) ∧ ∀ v w, v ≠ w → (∑ r, Q r v * Q r w) = 0

/-- C4: every frame of any orthonormal basis sequence produced by the
swept orthonormaliser has pairwise orthogonal, unit-norm column
vectors, whatever the initial basis and the pre-rotation — provided
the library decomposition `qr` honours its contract of returning an
orthonormal column factor (the guarantee documented for
`np.linalg.qr`). -/
theorem orthonormal_basis_sequence_orthonormal {k : Nat}
    (qr : (n : Nat) → Matrix (Fin n) (Fin n) ℝ → Matrix (Fin n) (Fin n) ℝ)
    (hqr : ∀ (n : Nat) (M : Matrix (Fin n) (Fin n) ℝ), orthonormalColumns (qr n M))
    (basis : Matrix (Fin k) (Fin k) ℝ)
    (rb : RotateBasis k)
    (return_vector_set : Bool)
    (i : Fin (rb.segments + 1)) :
    orthonormalColumns ((generate_orthonormal_bases qr basis rb return_vector_set).1 i) :=
  hqr k (vectorSet rb basis i)

/-- Fixture: a stand-in for `np.linalg.qr` that always returns the
identity matrix, which trivially satisfies the orthonormal-columns
contract. -/
def qrOne : (n : Nat) → Matrix (Fin n) (Fin n) ℝ → Matrix (Fin n) (Fin n) ℝ :=
  fun _ _ => 1

lemma qrOne_orthonormal :
    ∀ (n : Nat) (M : Matrix (Fin n) (Fin n) ℝ), orthonormalColumns (qrOne n M) := by
  intro n M
  constructor
  · intro v
    simp [qrOne, Matrix.one_apply]
  · intro v w hvw
    have : ∀ r : Fin n, (1 : Matrix (Fin n) (Fin n) ℝ) r v * (1 : Matrix (Fin n) (Fin n) ℝ) r w
        = if r = v then (if r = w then 1 else 0) else 0 := by
      intro r
      by_cases h1 : r = v <;> by_cases h2 : r = w <;> simp [Matrix.one_apply, h1, h2]
    show (∑ r, (1 : Matrix (Fin n) (Fin n) ℝ) r v * (1 : Matrix (Fin n) (Fin n) ℝ) r w) = 0
    rw [Finset.sum_congr rfl fun r _ => this r]
    simp [Finset.sum_ite_eq]
    intro hvw2
    exact absurd hvw2 hvw

/-- Witness for C4 at a concrete decomposition, basis and sweep. -/
theorem orthonormal_basis_sequence_orthonormal_witness :
    (∀ (n : Nat) (M : Matrix (Fin n) (Fin n) ℝ), orthonormalColumns (qrOne n M))
    ∧ orthonormalColumns
        ((generate_orthonormal_bases qrOne (1 : Matrix (Fin 2) (Fin 2) ℝ) rb2 false).1 0) :=
  ⟨qrOne_orthonormal,
    orthonormal_basis_sequence_orthonormal qrOne qrOne_orthonormal
      (1 : Matrix (Fin 2) (Fin 2) ℝ) rb2 false 0⟩

/-- A numpy array of arbitrary rank, represented extensionally by its
shape and the value at each multi-index. -/
structure PyArr where
  shape : List Nat
  val : List Nat → ℝ

/-- `np.linspace a b (segments+1)` as a plain list (runners.py line 104). -/
noncomputable def linspaceList (a b : ℝ) (segments : Nat) : List ℝ :=
  (List.range (segments + 1)).map fun i => a + i * ((b - a) / segments)

/-- `np.meshgrid` with its default indexing, for two or more input
sequences of lengths `n0, n1, n2, ...`: every output has shape
`(n1, n0, n2, ...)`, and output `i` varies only along the axis carrying
its own input — axis 1 for input 0, axis 0 for input 1, axis `i` for
later inputs. -/
noncomputable def meshgrid (arrays : List (List ℝ)) : List PyArr :=
  let dims := arrays.map List.length
  let shape : List Nat :=
    match dims with
    | d0 :: d1 :: rest => d1 :: d0 :: rest
    | other => other
  arrays.mapIdx fun i a =>
    let axis : Nat := if arrays.length ≥ 2 then (if i = 0 then 1 else if i = 1 then 0 else i) else i
    { shape := shape, val := fun idx => a.getD (idx.getD axis 0) 0 }

/-- `FunctionRunner.build_coordinates` (runners.py lines 80-111).  With
two or more ranges, each range becomes a linspace and the linspaces are
meshed (lines 101-106).  With exactly one range the `elif` branch at
line 109 reads the loop variable `number_range`, which is only ever
bound by the `for` loop of the other branch, so the lookup raises
`NameError`.  With no ranges neither branch runs and `None` is
returned. -/
noncomputable def FunctionRunner.build_coordinates (ranges : List RangeSpec) :
    Except RunError (Option (List PyArr)) :=
  match ranges with
  | [] => .ok none
  | [_] => .error (.nameError "number_range")
  | rs => .ok (some (meshgrid (rs.map fun r => linspaceList r.min r.max r.segments)))

/-- `simple_complex_square` (functions.py lines 60-84): with exactly two
argument arrays it returns the real and imaginary layers of
`(x + iy)²`, i.e. `x² − y²` and `2xy` elementwise; with any other
argument count it computes nothing and returns the `None` sentinel. -/
noncomputable def simple_complex_square (args : List PyArr) : Option (List PyArr) :=
  match args with
  | [a, b] =>
      some [{ shape := a.shape, val := fun idx => a.val idx * a.val idx - b.val idx * b.val idx },
            { shape := a.shape, val := fun idx => 2 * (a.val idx * b.val idx) }]
  | _ => none

/-- The computed-points record stored at runners.py lines 141-144: the
ranges and the stack of the coordinate arrays followed by the field
function's result arrays. -/
structure ComputedPointsRaw where
  ranges : List RangeSpec
  points : List PyArr

/-- The `computed_points` slot of a runner, as `compute_points` sees it. -/
structure ComputeState where
  computed_points : Option ComputedPointsRaw

/-- `FunctionRunner.compute_points` (runners.py lines 113-144): build
the coordinates; if none were generated, fall through and return with
the state untouched; otherwise call the field function (`fn` covers
both the plain-callable and the `.compute` dispatch of line 134); if it
returns the `None` sentinel, fall through likewise; otherwise store the
coordinates followed by the results, along with the ranges. -/
noncomputable def FunctionRunner.compute_points
    (fn : List PyArr → Option (List PyArr))
    (st : ComputeState) (ranges : List RangeSpec) :
    Except RunError ComputeState :=
  match FunctionRunner.build_coordinates ranges with
  | .error e => .error e
  | .ok none => .ok st
  | .ok (some coordinates) =>
      match fn coordinates with
      | none => .ok st
      | some results =>
          .ok { computed_points := some { ranges := ranges, points := coordinates ++ results } }

/-- C7 (code_bug): calling the coordinate builder with exactly one
range does not return a linspace at all — the `elif` branch at
runners.py line 109 reads `number_range`, a name bound only by the
`for` loop of the multi-range branch, so the call raises `NameError`
instead of producing the documented `segments + 1` samples. -/
theorem build_coordinates_single_range_name_error :
    FunctionRunner.build_coordinates [{ min := 0, max := 1, segments := 1 }]
      = .error (.nameError "number_range") := rfl

/-- C10: whenever the coordinate builder yields no grid, or the field
function returns its no-result sentinel, `compute_points` returns
normally and leaves `computed_points` — including any cloud stored by
an earlier successful call — exactly as it was. -/
theorem compute_points_silent_on_no_result
    (fn : List PyArr → Option (List PyArr))
    (st : ComputeState) (ranges : List RangeSpec)
    (h : FunctionRunner.build_coordinates ranges = .ok none
      ∨ ∃ coordinates, FunctionRunner.build_coordinates ranges = .ok (some coordinates)
          ∧ fn coordinates = none) :
    FunctionRunner.compute_points fn st ranges = .ok st := by
  rcases h with h | ⟨coordinates, hc, hfn⟩
  · rw [FunctionRunner.compute_points, h]
  · rw [FunctionRunner.compute_points, hc]
    simp only [hfn]

/-- Fixture: three equal ranges, as a caller might pass for a
three-axis grid. -/
noncomputable def threeRanges : List RangeSpec :=
  [{ min := 0, max := 1, segments := 1 }, { min := 0, max := 1, segments := 1 },
   { min := 0, max := 1, segments := 1 }]

/-- Fixture: a state already holding a previously computed cloud. -/
noncomputable def statePrev : ComputeState :=
  { computed_points := some { ranges := [], points := [] } }

lemma threeRanges_meshgrid_not_two :
    ∃ coordinates, FunctionRunner.build_coordinates threeRanges = .ok (some coordinates)
      ∧ simple_complex_square coordinates = none := by
  refine ⟨meshgrid (threeRanges.map fun r : RangeSpec => linspaceList r.min r.max r.segments),
    rfl, ?_⟩
  rfl

/-- Witness for C10: `simple_complex_square` called with the three
meshgrid arrays of `threeRanges` (one more than its expected arity)
signals no result, and the previously stored cloud survives the call
unchanged. -/
theorem compute_points_silent_on_no_result_witness :
    (FunctionRunner.build_coordinates threeRanges = .ok none
      ∨ ∃ coordinates, FunctionRunner.build_coordinates threeRanges = .ok (some coordinates)
          ∧ simple_complex_square coordinates = none)
    ∧ FunctionRunner.compute_points simple_complex_square statePrev threeRanges
        = .ok statePrev :=
  ⟨Or.inr threeRanges_meshgrid_not_two,
    compute_points_silent_on_no_result simple_complex_square statePrev threeRanges
      (Or.inr threeRanges_meshgrid_not_two)⟩
